import Mathlib

/-!
# CallStack (libutils/CallStack.cpp)

A shallow embedding of `android::CallStack`: the capture step (`update`), the
render step (`print`) and the conveniences built on it (`log`, `dump`,
`toString`, the one-shot constructor).

The classes `CallStack.cpp` only uses (the unwinder of `backtrace/Backtrace.h`,
the log macro of `utils/Log.h`, the sinks of `utils/Printer.h`) and the default
arguments declared in `utils/CallStack.h` are not defined in `CallStack.cpp`;
they are parameters of the embedding.
-/

set_option autoImplicit false

namespace android

/-! ## Strings -/

/-- The terminator of a C string. -/
def NUL : Char := Char.ofNat 0

/-- A `String8`, by the text it holds. Every `String8` of `CallStack.cpp` is
built from a `const char*` (or is empty), so the conversions between
`String8` and `const char*` keep the text as it is. -/
abbrev String8 := String

/-- A `const char*` argument: the null pointer, or the text it points at. -/
abbrev CharPtr := Option String

/-- The call `std::string::c_str()`: the characters of the string followed by a
terminator. A `std::string` is counted, so NUL may occur among them. -/
def c_str (s : String) : List Char := s.data ++ [NUL]

/-- The constructor `String8(const char*)`: it copies the characters in front of the first NUL. -/
def String8.ofCStr (p : List Char) : String8 := String.mk (p.takeWhile (fun c => c != NUL))

/-- Two's-complement `int32_t` value of an integer. -/
def wrapInt32 (x : Int) : Int := (x + 2147483648) % 4294967296 - 2147483648

/-! ## What `CallStack.cpp` is given -/

/-- The unwinder of `backtrace/Backtrace.h` as `CallStack::update` uses it;
`β` is the state of a `Backtrace` object. `Create` may hand back no object. -/
structure BacktraceLib (β : Type) where
  BACKTRACE_CURRENT_PROCESS : Int
  Create : Int → Int → Option β
  Unwind : β → Int → Bool × β
  NumFrames : β → Nat
  FormatFrameData : β → Nat → String

/-- A `Printer`: a sink with one method, `printLine`, acting on the sink's own
state `σ` (a log, a descriptor, a buffer). -/
structure Printer (σ : Type) where
  printLine : σ → String8 → σ

/-- What `CallStack.cpp` takes from `utils/Log.h`, `utils/Printer.h` and
`utils/CallStack.h`; `ω` is the state of the world outside the instance (the
log, the descriptors). -/
structure Platform (ω : Type) where
  ALOGW : ω → String → String → ω
  LogPrinter : CharPtr → Int → CharPtr → Bool → Printer ω
  FdPrinter : Int → Int → CharPtr → Printer ω
  String8Printer : CharPtr → Printer String8
  update_default_tid : Int
  log_default_priority : Int
  log_default_pfx : CharPtr

/-! ## The instance -/

/-- The one data member: `Vector<String8> mFrameLines`. -/
structure CallStack where
  mFrameLines : List String8
deriving DecidableEq, Repr

/-- How a call that may dereference a null `Backtrace*` ends: it returns, or
it faults; either way with the instance and the world as they are then. -/
inductive Outcome (ω : Type) where
  | returned (this : CallStack) (world : ω)
  | faulted (this : CallStack) (world : ω)
deriving DecidableEq, Repr

/-- The constructor `CallStack::CallStack()`: the member is default-constructed, empty. -/
def CallStack.new : CallStack := { mFrameLines := [] }

/-- The `LOG_TAG` of `CallStack.cpp`. -/
def LOG_TAG : String := "CallStack"

/-- The text `ALOGW("%s: Failed to unwind callstack.", __FUNCTION__)` logs
inside `update`. -/
def unwindWarning : String := "update" ++ ": Failed to unwind callstack."

/-- The loop of `CallStack::update`:
`for (size_t i = 0; i < backtrace->NumFrames(); i++)
   mFrameLines.push_back(String8(backtrace->FormatFrameData(i).c_str()));`
from index `i` on. -/
def CallStack.updateLoop {β : Type} (L : BacktraceLib β) (backtrace : β)
    (this : CallStack) (i : Nat) : CallStack :=
  if i < L.NumFrames backtrace then
    CallStack.updateLoop L backtrace
      { this with mFrameLines :=
          this.mFrameLines ++ [String8.ofCStr (c_str (L.FormatFrameData backtrace i))] }
      (i + 1)
  else this
termination_by L.NumFrames backtrace - i

/-- The method `void CallStack::update(int32_t ignoreDepth, pid_t tid)`: the
member is cleared, an unwinder is created for the thread and asked to unwind,
a failure is logged as a warning, and a line is stored per frame it holds. -/
def CallStack.update {β ω : Type} (L : BacktraceLib β) (P : Platform ω)
    (this : CallStack) (ignoreDepth : Int) (tid : Int) (world : ω) : Outcome ω :=
  -- mFrameLines.clear();
  let this : CallStack := { this with mFrameLines := [] }
  -- UniquePtr<Backtrace> backtrace(Backtrace::Create(BACKTRACE_CURRENT_PROCESS, tid));
  match L.Create L.BACKTRACE_CURRENT_PROCESS tid with
  | none => Outcome.faulted this world           -- backtrace->Unwind on no object
  | some backtrace =>
    -- if (!backtrace->Unwind(ignoreDepth)) ALOGW(...)
    let r := L.Unwind backtrace ignoreDepth
    let world := if !r.1 then P.ALOGW world LOG_TAG unwindWarning else world
    Outcome.returned (CallStack.updateLoop L r.2 this 0) world

/-- The loop of `CallStack::print`:
`for (size_t i = 0; i < mFrameLines.size(); i++) printer.printLine(mFrameLines[i]);`
from index `i` on; it hands back the instance and the sink as they are after it. -/
def CallStack.printLoop {σ : Type} (printer : Printer σ) (this : CallStack)
    (i : Nat) (s : σ) : CallStack × σ :=
  if h : i < this.mFrameLines.length then
    CallStack.printLoop printer this (i + 1) (printer.printLine s (this.mFrameLines.get ⟨i, h⟩))
  else (this, s)
termination_by this.mFrameLines.length - i

/-- The method `void CallStack::print(Printer& printer) const`. -/
def CallStack.print {σ : Type} (this : CallStack) (printer : Printer σ) (s : σ) :
    CallStack × σ :=
  CallStack.printLoop printer this 0 s

/-- The method `void CallStack::log(const char* logtag, android_LogPriority priority,
const char* prefix) const`. -/
def CallStack.log {ω : Type} (P : Platform ω) (this : CallStack) (logtag : CharPtr)
    (priority : Int) (pfx : CharPtr) (world : ω) : CallStack × ω :=
  -- LogPrinter printer(logtag, priority, prefix, /*ignoreBlankLines*/false);
  this.print (P.LogPrinter logtag priority pfx false) world

/-- The method `void CallStack::dump(int fd, int indent, const char* prefix) const`. -/
def CallStack.dump {ω : Type} (P : Platform ω) (this : CallStack) (fd : Int)
    (indent : Int) (pfx : CharPtr) (world : ω) : CallStack × ω :=
  -- FdPrinter printer(fd, indent, prefix);
  this.print (P.FdPrinter fd indent pfx) world

/-- The method `String8 CallStack::toString(const char* prefix) const`: the instance after
the call and the string returned. -/
def CallStack.toString {ω : Type} (P : Platform ω) (this : CallStack) (pfx : CharPtr) :
    CallStack × String8 :=
  -- String8 str; String8Printer printer(&str, prefix); print(printer); return str;
  let str : String8 := ""
  this.print (P.String8Printer pfx) str

/-- The constructor `CallStack::CallStack(const char* logtag, int32_t ignoreDepth)`:
`this->update(ignoreDepth+1); this->log(logtag);` on a fresh instance, the
arguments left out taking the defaults of the header. The sum is an `int32_t`. -/
def CallStack.newLogged {β ω : Type} (L : BacktraceLib β) (P : Platform ω)
    (logtag : CharPtr) (ignoreDepth : Int) (world : ω) : Outcome ω :=
  match CallStack.update L P CallStack.new (wrapInt32 (ignoreDepth + 1))
      P.update_default_tid world with
  | Outcome.faulted this world => Outcome.faulted this world
  | Outcome.returned this world =>
    let r := CallStack.log P this logtag P.log_default_priority P.log_default_pfx world
    Outcome.returned r.1 r.2

/-! ## Sinks used to observe `print` -/

/-- A sink together with the list of the lines it was given, in the order of
the calls to `printLine`. -/
def Printer.traced {σ : Type} (printer : Printer σ) : Printer (σ × List String8) :=
  { printLine := fun st line => (printer.printLine st.1 line, st.2 ++ [line]) }

/-- Modelled from the spec: `String8Printer` of `utils/Printer.h`, whose code is
not among the sources: the "string-accumulator sink (prefix string, appends
into a growable buffer with trailing newline per line)". A null prefix adds
nothing. -/
def String8Printer (pfx : CharPtr) : Printer String8 :=
  { printLine := fun target line => ((target ++ pfx.getD "") ++ line) ++ "\n" }

/-! ## The unwinder of the spec -/

/-- Modelled from the spec: a `Backtrace` object of the external unwinding
library, whose code is not among the sources. The thread it is bound to has
the active frames `stack`, innermost first; `frames` are the frames the last
unwind produced. -/
structure Unwinder (φ : Type) where
  stack : List φ
  frames : List φ
deriving DecidableEq, Repr

/-- Modelled from the spec: the external unwinding library, "create unwinder
for process/thread", "unwind skipping N frames → success/failure", "frame
count", "format frame i → display string". The ignore depth is the "count of
innermost frames to omit from the captured result"; whether an unwind reports
success is left to `succeeds`. -/
def specBacktraceLib {φ : Type} (currentProcess : Int) (threads : Int → Int → List φ)
    (display : φ → String) (succeeds : List φ → Int → Bool) : BacktraceLib (Unwinder φ) :=
  { BACKTRACE_CURRENT_PROCESS := currentProcess
    Create := fun pid tid => some { stack := threads pid tid, frames := [] }
    Unwind := fun u n => (succeeds u.stack n, { u with frames := u.stack.drop n.toNat })
    NumFrames := fun u => u.frames.length
    FormatFrameData := fun u i =>
      match u.frames.get? i with
      | some f => display f
      | none => "" }

/-- The lines `update` makes of the frames an unwinder holds. -/
def storedLines {β : Type} (L : BacktraceLib β) (backtrace : β) : List String8 :=
  (List.range (L.NumFrames backtrace)).map
    (fun i => String8.ofCStr (c_str (L.FormatFrameData backtrace i)))

/-! ## The one-shot constructor as the spec words it -/

/-- The spec's one-shot constructor: an empty instance, then a capture that
skips one frame more than asked (the sum taken among the integers) on the
default thread, then the log convenience under the tag with the default
priority and prefix. -/
def oneShotSpec {β ω : Type} (L : BacktraceLib β) (P : Platform ω)
    (logtag : CharPtr) (ignoreDepth : Int) (world : ω) : Outcome ω :=
  match CallStack.update L P CallStack.new (ignoreDepth + 1) P.update_default_tid world with
  | Outcome.faulted this world => Outcome.faulted this world
  | Outcome.returned this world =>
    let r := CallStack.log P this logtag P.log_default_priority P.log_default_pfx world
    Outcome.returned r.1 r.2

/-! ## Concrete instances -/

/-- A platform whose world is the list of the texts written so far. -/
def demoPlatform : Platform (List String) :=
  { ALOGW := fun w tag msg => w ++ ["W/" ++ tag ++ ": " ++ msg]
    LogPrinter := fun logtag _ pfx _ =>
      { printLine := fun w line => w ++ ["D/" ++ logtag.getD "" ++ ": " ++ pfx.getD "" ++ line] }
    FdPrinter := fun _ _ pfx => { printLine := fun w line => w ++ [pfx.getD "" ++ line] }
    String8Printer := String8Printer
    update_default_tid := -1
    log_default_priority := 3
    log_default_pfx := none }

/-- The frames of a thread inside `f`, called by `main`. -/
def demoStack : List String := ["#00 pc 00001234  f", "#01 pc 00005678  main"]

/-- The unwinder of the spec on `demoStack`, every unwind succeeding. -/
def demoLib : BacktraceLib (Unwinder String) :=
  specBacktraceLib (-1) (fun _ _ => demoStack) (fun f => f) (fun _ _ => true)

/-- The unwinder of the spec on `demoStack`, every unwind reporting failure. -/
def failingLib : BacktraceLib (Unwinder String) :=
  specBacktraceLib (-1) (fun _ _ => demoStack) (fun f => f) (fun _ _ => false)

/-- The same unwinder with a `Create` that hands back no object. -/
def nullLib : BacktraceLib (Unwinder String) :=
  { demoLib with Create := fun _ _ => none }

theorem String8.ofCStr_c_str (s : String) :
    String8.ofCStr (c_str s) = String.mk (s.data.takeWhile (fun c => c != NUL)) := by
  have key : ∀ l : List Char, (l ++ [NUL]).takeWhile (fun c => c != NUL)
      = l.takeWhile (fun c => c != NUL) := by
    intro l
    induction l with
    | nil => simp [List.takeWhile]
    | cons a t ih =>
      by_cases h : a = NUL
      · simp [List.takeWhile, h]
      · simp [List.takeWhile, h, ih]
  simp [String8.ofCStr, c_str, key]

theorem String8.ofCStr_c_str_of_text (s : String) (h : NUL ∉ s.data) :
    String8.ofCStr (c_str s) = s := by
  rw [String8.ofCStr_c_str]
  have key : ∀ l : List Char, NUL ∉ l → l.takeWhile (fun c => c != NUL) = l := by
    intro l hl
    induction l with
    | nil => rfl
    | cons a t ih =>
      simp only [List.mem_cons, not_or] at hl
      have ha : (a != NUL) = true := by
        simpa using fun e : a = NUL => hl.1 e.symm
      rw [List.takeWhile_cons, ha]
      simp [ih hl.2]
  rw [key s.data h]

theorem CallStack.updateLoop_eq {β : Type} (L : BacktraceLib β) (backtrace : β) :
    ∀ (k i : Nat) (this : CallStack), i + k = L.NumFrames backtrace →
      CallStack.updateLoop L backtrace this i
        = { mFrameLines := this.mFrameLines ++ (List.range' i k).map
              (fun j => String8.ofCStr (c_str (L.FormatFrameData backtrace j))) } := by
  intro k
  induction k with
  | zero =>
    intro i this h
    rw [CallStack.updateLoop]
    have : ¬ i < L.NumFrames backtrace := by omega
    simp [this]
  | succ k ih =>
    intro i this h
    rw [CallStack.updateLoop]
    have hlt : i < L.NumFrames backtrace := by omega
    rw [if_pos hlt, ih (i + 1) _ (by omega)]
    simp [List.range'_succ, List.append_assoc]

theorem CallStack.updateLoop_zero {β : Type} (L : BacktraceLib β) (backtrace : β)
    (this : CallStack) :
    CallStack.updateLoop L backtrace this 0
      = { mFrameLines := this.mFrameLines ++ storedLines L backtrace } := by
  rw [CallStack.updateLoop_eq L backtrace (L.NumFrames backtrace) 0 this (by omega)]
  simp [storedLines, List.range_eq_range']

theorem CallStack.printLoop_eq {σ : Type} (printer : Printer σ) (this : CallStack) :
    ∀ (k i : Nat) (s : σ), i + k = this.mFrameLines.length →
      CallStack.printLoop printer this i s
        = (this, (this.mFrameLines.drop i).foldl printer.printLine s) := by
  intro k
  induction k with
  | zero =>
    intro i s h
    rw [CallStack.printLoop]
    have hn : ¬ i < this.mFrameLines.length := by omega
    rw [dif_neg hn, List.drop_of_length_le (by omega)]
    rfl
  | succ k ih =>
    intro i s h
    rw [CallStack.printLoop]
    have hlt : i < this.mFrameLines.length := by omega
    rw [dif_pos hlt, ih (i + 1) _ (by omega)]
    rw [List.drop_eq_getElem_cons hlt]
    rfl

theorem CallStack.print_eq {σ : Type} (this : CallStack) (printer : Printer σ) (s : σ) :
    this.print printer s = (this, this.mFrameLines.foldl printer.printLine s) := by
  unfold CallStack.print
  rw [CallStack.printLoop_eq printer this this.mFrameLines.length 0 s (by omega)]
  rfl

theorem foldl_traced {σ : Type} (printer : Printer σ) (lines : List String8) :
    ∀ (s : σ) (calls : List String8),
      lines.foldl printer.traced.printLine (s, calls)
        = (lines.foldl printer.printLine s, calls ++ lines) := by
  induction lines with
  | nil => intro s calls; simp
  | cons a t ih =>
    intro s calls
    simp only [List.foldl_cons]
    show List.foldl printer.traced.printLine (printer.printLine s a, calls ++ [a]) t = _
    rw [ih]
    simp

/-! ## `update`, case by case -/

theorem CallStack.update_of_create {β ω : Type} (L : BacktraceLib β) (P : Platform ω)
    (this : CallStack) (ignoreDepth tid : Int) (world : ω) (backtrace : β)
    (h : L.Create L.BACKTRACE_CURRENT_PROCESS tid = some backtrace) :
    CallStack.update L P this ignoreDepth tid world
      = Outcome.returned { mFrameLines := storedLines L (L.Unwind backtrace ignoreDepth).2 }
          (if (L.Unwind backtrace ignoreDepth).1 then world
           else P.ALOGW world LOG_TAG unwindWarning) := by
  unfold CallStack.update
  simp only [h, CallStack.updateLoop_zero, List.nil_append]
  cases (L.Unwind backtrace ignoreDepth).1 <;> simp

theorem CallStack.update_of_no_create {β ω : Type} (L : BacktraceLib β) (P : Platform ω)
    (this : CallStack) (ignoreDepth tid : Int) (world : ω)
    (h : L.Create L.BACKTRACE_CURRENT_PROCESS tid = none) :
    CallStack.update L P this ignoreDepth tid world
      = Outcome.faulted { mFrameLines := [] } world := by
  unfold CallStack.update
  simp only [h]

theorem storedLines_length {β : Type} (L : BacktraceLib β) (backtrace : β) :
    (storedLines L backtrace).length = L.NumFrames backtrace := by
  simp [storedLines]

theorem storedLines_of_text {β : Type} (L : BacktraceLib β) (backtrace : β)
    (h : ∀ i, i < L.NumFrames backtrace → NUL ∉ (L.FormatFrameData backtrace i).data) :
    storedLines L backtrace
      = (List.range (L.NumFrames backtrace)).map (L.FormatFrameData backtrace) := by
  unfold storedLines
  apply List.map_congr_left
  intro i hi
  exact String8.ofCStr_c_str_of_text _ (h i (List.mem_range.mp hi))

theorem storedLines_spec {φ : Type} (currentProcess : Int) (threads : Int → Int → List φ)
    (display : φ → String) (succeeds : List φ → Int → Bool) (u : Unwinder φ) :
    storedLines (specBacktraceLib currentProcess threads display succeeds) u
      = u.frames.map (fun f => String8.ofCStr (c_str (display f))) := by
  apply List.ext_getElem
  · simp [storedLines, specBacktraceLib]
  · intro i h1 h2
    have hi : i < u.frames.length := by simpa using h2
    simp [storedLines, specBacktraceLib, List.getElem?_eq_getElem hi]

theorem foldl_String8Printer (pfx : CharPtr) (lines : List String8) :
    lines.foldl (String8Printer pfx).printLine ""
      = String.join (lines.map (fun line => (pfx.getD "" ++ line) ++ "\n")) := by
  have key : ∀ (f : String → String) (l : List String) (acc : String),
      List.foldl (fun r s => r ++ s) acc (l.map f) = List.foldl (fun r s => r ++ f s) acc l := by
    intro f l
    induction l with
    | nil => intro acc; rfl
    | cons a t ih => intro acc; simp [ih]
  rw [String.join, key]
  congr 1
  funext target line
  simp [String8Printer, String.append_assoc]

theorem wrapInt32_of_int32 (x : Int) (lo : -2147483648 ≤ x) (hi : x ≤ 2147483647) :
    wrapInt32 x = x := by
  unfold wrapInt32
  omega

/-! ## The claims -/

/-- C1. `CallStack::print` on any sink makes one call to the sink's `printLine`
per stored line: the calls it makes are, in order, exactly the stored lines
`L[0], ..., L[|L|-1]`, each handed over as stored, and the sink ends as these
calls leave it. -/
theorem print_calls_are_stored_lines {σ : Type} (this : CallStack) (printer : Printer σ)
    (s : σ) :
    (this.print printer.traced (s, [])).2
      = (this.mFrameLines.foldl printer.printLine s, this.mFrameLines) := by
  rw [CallStack.print_eq, foldl_traced]
  simp

/-- C2. For every prior content of the instance, every ignore depth and
thread, `update` on an unwinder whose formatted frames are display strings
(text, no NUL inside) returns with the stored lines being exactly
`[FormatFrameData(0), ..., FormatFrameData(n-1)]`, where `n` is the unwinder's
`NumFrames()` after this unwind: `n` lines, not the prior count plus `n`, none
of them a prior line, in the order of the unwinder. -/
theorem update_replaces_lines {β ω : Type} (L : BacktraceLib β) (P : Platform ω)
    (this : CallStack) (ignoreDepth tid : Int) (world : ω) (backtrace : β)
    (h : L.Create L.BACKTRACE_CURRENT_PROCESS tid = some backtrace)
    (htext : ∀ i, i < L.NumFrames (L.Unwind backtrace ignoreDepth).2 →
      NUL ∉ (L.FormatFrameData (L.Unwind backtrace ignoreDepth).2 i).data) :
    ∃ (this1 : CallStack) (world1 : ω),
      CallStack.update L P this ignoreDepth tid world = Outcome.returned this1 world1 ∧
      this1.mFrameLines
        = (List.range (L.NumFrames (L.Unwind backtrace ignoreDepth).2)).map
            (L.FormatFrameData (L.Unwind backtrace ignoreDepth).2) ∧
      this1.mFrameLines.length = L.NumFrames (L.Unwind backtrace ignoreDepth).2 := by
  refine ⟨_, _, CallStack.update_of_create L P this ignoreDepth tid world backtrace h, ?_, ?_⟩
  · exact storedLines_of_text L _ htext
  · simp [storedLines]

/-- C2 at `demoLib`: with three lines stored before, the two lines of the two
frames are what is stored after. -/
theorem update_replaces_lines_witness :
    ∃ (this1 : CallStack) (world1 : List String),
      CallStack.update demoLib demoPlatform { mFrameLines := ["old", "older", "oldest"] } 0 7 []
        = Outcome.returned this1 world1 ∧
      this1.mFrameLines
        = (List.range (demoLib.NumFrames (demoLib.Unwind ⟨demoStack, []⟩ 0).2)).map
            (demoLib.FormatFrameData (demoLib.Unwind ⟨demoStack, []⟩ 0).2) ∧
      this1.mFrameLines.length = demoLib.NumFrames (demoLib.Unwind ⟨demoStack, []⟩ 0).2 :=
  update_replaces_lines demoLib demoPlatform { mFrameLines := ["old", "older", "oldest"] } 0 7 []
    ⟨demoStack, []⟩ rfl (by decide)

/-- C3. When the unwinder's `Unwind(ignoreDepth)` reports failure, `update`
still returns to its caller (it has no result to carry an error): it has
logged the one warning and stored a line for every frame the unwinder holds,
`NumFrames()` of them, the same lines `storedLines` it stores of these frames
when `Unwind` reports success, in which case nothing is logged. -/
theorem update_unwind_failure_is_swallowed {β ω : Type} (L : BacktraceLib β) (P : Platform ω)
    (this : CallStack) (ignoreDepth tid : Int) (world : ω) (backtrace : β)
    (h : L.Create L.BACKTRACE_CURRENT_PROCESS tid = some backtrace) :
    (storedLines L (L.Unwind backtrace ignoreDepth).2).length
        = L.NumFrames (L.Unwind backtrace ignoreDepth).2 ∧
    ((L.Unwind backtrace ignoreDepth).1 = false →
      CallStack.update L P this ignoreDepth tid world
        = Outcome.returned { mFrameLines := storedLines L (L.Unwind backtrace ignoreDepth).2 }
            (P.ALOGW world LOG_TAG unwindWarning)) ∧
    ((L.Unwind backtrace ignoreDepth).1 = true →
      CallStack.update L P this ignoreDepth tid world
        = Outcome.returned { mFrameLines := storedLines L (L.Unwind backtrace ignoreDepth).2 }
            world) := by
  refine ⟨storedLines_length L _, ?_, ?_⟩
  · intro hf
    rw [CallStack.update_of_create L P this ignoreDepth tid world backtrace h, hf]
    simp
  · intro ht
    rw [CallStack.update_of_create L P this ignoreDepth tid world backtrace h, ht]
    simp

/-- C3 at `failingLib`, whose unwind reports failure with two frames held: the
two lines are stored and the warning is the one text logged. -/
theorem update_unwind_failure_is_swallowed_witness :
    (failingLib.Unwind ⟨demoStack, []⟩ 0).1 = false ∧
    CallStack.update failingLib demoPlatform { mFrameLines := ["old"] } 0 7 []
      = Outcome.returned { mFrameLines := demoStack }
          ["W/CallStack: update: Failed to unwind callstack."] := by
  refine ⟨rfl, ?_⟩
  rw [(update_unwind_failure_is_swallowed failingLib demoPlatform { mFrameLines := ["old"] }
    0 7 [] ⟨demoStack, []⟩ rfl).2.1 rfl]
  decide

/-- C10. `update` uses what `Backtrace::Create` hands back without a check:
it returns if and only if `Create` hands back an unwinder, and when `Create`
hands back none it faults at the call of `Unwind`, the stored lines already
cleared and nothing logged. -/
theorem update_returns_iff_created {β ω : Type} (L : BacktraceLib β) (P : Platform ω)
    (this : CallStack) (ignoreDepth tid : Int) (world : ω) :
    ((∃ (this1 : CallStack) (world1 : ω),
        CallStack.update L P this ignoreDepth tid world = Outcome.returned this1 world1)
      ↔ (L.Create L.BACKTRACE_CURRENT_PROCESS tid).isSome = true) ∧
    (L.Create L.BACKTRACE_CURRENT_PROCESS tid = none →
      CallStack.update L P this ignoreDepth tid world
        = Outcome.faulted { mFrameLines := [] } world) := by
  constructor
  · cases h : L.Create L.BACKTRACE_CURRENT_PROCESS tid with
    | none =>
      rw [CallStack.update_of_no_create L P this ignoreDepth tid world h]
      simp
    | some backtrace =>
      rw [CallStack.update_of_create L P this ignoreDepth tid world backtrace h]
      simp
  · intro h
    exact CallStack.update_of_no_create L P this ignoreDepth tid world h

/-- C10 at `nullLib`: with two lines stored, `update` faults and leaves none. -/
theorem update_returns_iff_created_witness :
    CallStack.update nullLib demoPlatform { mFrameLines := demoStack } 0 7 []
      = Outcome.faulted { mFrameLines := [] } [] :=
  (update_returns_iff_created nullLib demoPlatform { mFrameLines := demoStack } 0 7 []).2 rfl

/-- C4. With the string-accumulator sink of the spec, `toString(prefix)` is the
concatenation over the stored lines, in order, of prefix, line and a line
terminator; so on a stack of two lines `a`, `b` with prefix `"  "` it is two
lines, `"  " ++ a ++ "\n"` and then `"  " ++ b ++ "\n"`, each starting with
the prefix and ending with the terminator. -/
theorem toString_is_prefixed_lines {ω : Type} (P : Platform ω)
    (hP : P.String8Printer = String8Printer) :
    (∀ (this : CallStack) (pfx : String),
      (CallStack.toString P this (some pfx)).2
        = String.join (this.mFrameLines.map (fun line => (pfx ++ line) ++ "\n"))) ∧
    (∀ a b : String8,
      (CallStack.toString P { mFrameLines := [a, b] } (some "  ")).2
        = (("  " ++ a) ++ "\n") ++ (("  " ++ b) ++ "\n")) := by
  have gen : ∀ (this : CallStack) (pfx : String),
      (CallStack.toString P this (some pfx)).2
        = String.join (this.mFrameLines.map (fun line => (pfx ++ line) ++ "\n")) := by
    intro this pfx
    unfold CallStack.toString
    rw [CallStack.print_eq, hP]
    exact foldl_String8Printer (some pfx) this.mFrameLines
  refine ⟨gen, ?_⟩
  intro a b
  rw [gen]
  simp [String.join]

/-- C4 on the two lines of `demoStack`. -/
theorem toString_is_prefixed_lines_witness :
    (CallStack.toString demoPlatform { mFrameLines := demoStack } (some "  ")).2
      = "  #00 pc 00001234  f\n  #01 pc 00005678  main\n" := by
  rw [(toString_is_prefixed_lines demoPlatform rfl).1]
  decide

/-- C5. Rendering is idempotent: `toString` called again on the instance the
first call leaves, each call through a string sink of its own, returns the
same string, whatever the stored lines, the prefix and the sink. -/
theorem toString_twice_same {ω : Type} (P : Platform ω) (this : CallStack) (pfx : CharPtr) :
    (CallStack.toString P (CallStack.toString P this pfx).1 pfx).2
      = (CallStack.toString P this pfx).2 := by
  unfold CallStack.toString
  simp only [CallStack.print_eq]

/-- C6. `print`, `log`, `dump` and `toString` leave the stored frame lines as
they were: the instance after the call is the instance before it, for every
instance and every argument. -/
theorem render_keeps_stored_lines {σ ω : Type} (P : Platform ω) (this : CallStack)
    (printer : Printer σ) (s : σ) (logtag pfx : CharPtr) (priority fd indent : Int)
    (world : ω) :
    (this.print printer s).1 = this ∧
    (CallStack.log P this logtag priority pfx world).1 = this ∧
    (CallStack.dump P this fd indent pfx world).1 = this ∧
    (CallStack.toString P this pfx).1 = this := by
  unfold CallStack.log CallStack.dump CallStack.toString
  simp only [CallStack.print_eq, and_self]

/-- C7. For an `int32_t` ignore depth below the maximum the one-shot
constructor `CallStack(logtag, ignoreDepth)` does what the spec says of it: an
empty instance, `update` with ignore depth `ignoreDepth + 1` on the default
thread, then `log(logtag)` with the default priority and prefix; the instance
and the world (so the lines sent to the log sink) end the same. -/
theorem newLogged_refines_oneShotSpec {β ω : Type} (L : BacktraceLib β) (P : Platform ω)
    (logtag : CharPtr) (ignoreDepth : Int) (world : ω)
    (lo : -2147483648 ≤ ignoreDepth) (hi : ignoreDepth < 2147483647) :
    CallStack.newLogged L P logtag ignoreDepth world
      = oneShotSpec L P logtag ignoreDepth world := by
  unfold CallStack.newLogged oneShotSpec
  rw [wrapInt32_of_int32 (ignoreDepth + 1) (by omega) (by omega)]

/-- C7 at `demoLib`, tag `here`, ignore depth 0: the frame of `main` is the one
stored and logged. -/
theorem newLogged_refines_oneShotSpec_witness :
    CallStack.newLogged demoLib demoPlatform (some "here") 0 []
      = oneShotSpec demoLib demoPlatform (some "here") 0 [] ∧
    oneShotSpec demoLib demoPlatform (some "here") 0 []
      = Outcome.returned { mFrameLines := ["#01 pc 00005678  main"] }
          ["D/here: #01 pc 00005678  main"] := by
  refine ⟨newLogged_refines_oneShotSpec demoLib demoPlatform (some "here") 0 []
    (by decide) (by decide), ?_⟩
  unfold oneShotSpec
  rw [CallStack.update_of_create demoLib demoPlatform _ _ _ [] ⟨demoStack, []⟩ rfl]
  simp only [CallStack.log, CallStack.print_eq]
  decide

/-- C9. With the unwinder of the spec, a capture with an ignore depth above the
depth of the stack returns (it does not fault) with no line stored; a `print`
after it makes no call to the sink, and `toString` returns the empty string. -/
theorem update_ignore_beyond_depth {φ ω : Type} (currentProcess : Int)
    (threads : Int → Int → List φ) (display : φ → String) (succeeds : List φ → Int → Bool)
    (P : Platform ω) (this : CallStack) (D : Int) (tid : Int) (world : ω)
    (hD : ((threads currentProcess tid).length : Int) < D) :
    ∃ (this1 : CallStack) (world1 : ω),
      CallStack.update (specBacktraceLib currentProcess threads display succeeds) P
        this D tid world = Outcome.returned this1 world1 ∧
      this1.mFrameLines = [] ∧
      (∀ (σ : Type) (printer : Printer σ) (s : σ),
        (this1.print printer.traced (s, [])).2 = (s, [])) ∧
      (∀ pfx : CharPtr, (CallStack.toString P this1 pfx).2 = "") := by
  refine ⟨_, _, CallStack.update_of_create _ P this D tid world
    (Unwinder.mk (threads currentProcess tid) []) rfl, ?_⟩
  have hdrop : (threads currentProcess tid).drop D.toNat = [] :=
    List.drop_of_length_le (by omega)
  have hlines : storedLines (specBacktraceLib currentProcess threads display succeeds)
      ((specBacktraceLib currentProcess threads display succeeds).Unwind
        { stack := threads currentProcess tid, frames := [] } D).2 = [] := by
    rw [storedLines_spec]
    simp [specBacktraceLib, hdrop]
  rw [hlines]
  refine ⟨rfl, ?_, ?_⟩
  · intro σ printer s
    rw [CallStack.print_eq]
    rfl
  · intro pfx
    unfold CallStack.toString
    rw [CallStack.print_eq]
    rfl

/-- C9 at `demoLib`, ignore depth 3 of a stack of two frames. -/
theorem update_ignore_beyond_depth_witness :
    ∃ (this1 : CallStack) (world1 : List String),
      CallStack.update demoLib demoPlatform { mFrameLines := ["old"] } 3 7 []
        = Outcome.returned this1 world1 ∧
      this1.mFrameLines = [] ∧
      (∀ (σ : Type) (printer : Printer σ) (s : σ),
        (this1.print printer.traced (s, [])).2 = (s, [])) ∧
      (∀ pfx : CharPtr, (CallStack.toString demoPlatform this1 pfx).2 = "") :=
  update_ignore_beyond_depth (-1) (fun _ _ => demoStack) (fun f => f) (fun _ _ => true)
    demoPlatform { mFrameLines := ["old"] } 3 7 [] (by decide)

end android
